import Mathlib

/-!
Verification of `website_status_checker/main.py`.

The program periodically probes configured URLs and notifies a Telegram chat
when a site's reachability flips.  We embed the program shallowly:

* the Python dict `site_status : Dict[str, bool]` becomes an association list
  `List (String × Bool)` with dict-style read (`dictGet`) and assignment
  (`dictSet`);
* network effects (`requests.get`, `requests.post`) become explicit outcome
  values (`TransportResult`, `HttpOutcome`) passed to the embedded function;
* log output becomes an explicit list of `LogLine`s returned by the function;
* Python exceptions become `Except` / the `failure` constructors.
-/

/-- A log severity, mirroring `logging.info` / `logging.error`. -/
inductive LogLevel where
  | info : LogLevel
  | error : LogLevel
deriving DecidableEq, Repr

/-- One emitted log line: severity and message text. -/
structure LogLine where
  level : LogLevel
  msg : String
deriving DecidableEq, Repr

/-- Dict read `m[k]`: the value stored at the first matching key, `none` when
the key is absent (a Python `KeyError` at use sites that do not guard). -/
def dictGet (m : List (String × Bool)) (k : String) : Option Bool :=
  match m with
  | [] => none
  | (k', v) :: rest => if k' = k then some v else dictGet rest k

/-- Dict assignment `m[k] = v`: replaces the value at an existing key in
place, appends a new entry when the key is absent (Python dict semantics). -/
def dictSet (m : List (String × Bool)) (k : String) (v : Bool) :
    List (String × Bool) :=
  match m with
  | [] => [(k, v)]
  | (k', v') :: rest => if k' = k then (k', v) :: rest else (k', v') :: dictSet rest k v

/-- The keys of the dict, in storage order. -/
def dictKeys (m : List (String × Bool)) : List String :=
  m.map Prod.fst

/-- The constant `TELEGRAM_API_URL = "https://api.telegram.org/bot"` from
the source (the two credentials come from the environment and are modelled as
`Option String` parameters, `none` when the variable is unset). -/
def TELEGRAM_API_URL : String := "https://api.telegram.org/bot"

/-- Python truthiness of an optional string: `None` and `""` are falsy. -/
def truthy (s : Option String) : Bool :=
  match s with
  | none => false
  | some s => s ≠ ""

/-- Embeds `check_telegram_credentials`: `all([TELEGRAM_API_URL, TELEGRAM_API_TOKEN,
TELEGRAM_CHAT_ID])`, the truthiness check of the three module-level credential
values, which are passed here explicitly (base URL as a `String`, the two
environment lookups as `Option String`). -/
def check_telegram_credentials (telegram_api_url : String)
    (telegram_api_token telegram_chat_id : Option String) : Bool :=
  [truthy (some telegram_api_url), truthy telegram_api_token,
    truthy telegram_chat_id].all id

/-- Outcome of one `requests.get` / `requests.post` transport attempt:
either a completed HTTP response (status code and body text) or a raised
`requests.exceptions.RequestException` carrying its text. -/
inductive HttpOutcome where
  | response : Int → String → HttpOutcome
  | exception : String → HttpOutcome
deriving DecidableEq, Repr

/-- Embeds `send_to_telegram(message)`: posts to the Telegram API and returns whether
the message was sent.  The transport outcome of the single `requests.post` is
the explicit `outcome` argument.  Returns the boolean result together with the
log lines emitted, mirroring the source's `logging` calls. -/
def send_to_telegram (outcome : HttpOutcome) (message : String) :
    Bool × List LogLine :=
  match outcome with
  | .response status_code text =>
    if status_code ≠ 200 then
      (false, [⟨.error, "Message not sent to Telegram. Status code: " ++
        toString status_code ++ ", response: " ++ text⟩])
    else
      (true, [⟨.info, "Message sent to Telegram successfully."⟩])
  | .exception err =>
    (false, [⟨.error, "Message not sent to Telegram. Error is - " ++ err⟩])

/-- Embeds `check_status(status)`: true iff the status equals `http.HTTPStatus.OK`
(the integer 200).  The argument is `int | None` in practice (it receives
`request_to_host`'s result), and `None == 200` is false in Python, so the
sentinel maps to `false`. -/
def check_status (status : Option Int) : Bool :=
  if status = some 200 then true else false

/-- Outcome of the single `requests.get(url, timeout=5)` inside
`request_to_host`: a completed response (any status code) or a raised
`requests.exceptions.RequestException` with its text. -/
inductive TransportResult where
  | completed : Int → TransportResult
  | failure : String → TransportResult
deriving DecidableEq, Repr

/-- Embeds `request_to_host(url)`: performs one GET and returns the status code, or
`None` on a transport failure (the `except` branch has no `return`, so the
function returns `None`).  The `logging.info` call sits after `requests.get`,
so it runs only on a completed response; the `except` branch logs one error
line.  Returns the result together with the emitted log lines. -/
def request_to_host (url : String) (outcome : TransportResult) :
    Option Int × List LogLine :=
  match outcome with
  | .completed status_code =>
    (some status_code, [⟨.info, "Request to url: " ++ url⟩])
  | .failure err =>
    (none, [⟨.error, "Request to url: " ++ url ++ " failed. Error is - " ++ err⟩])

/-- Embeds `notify_status_change(url, is_ok, site_status)`.  The source reads
`site_status[url]` unguarded in its `if`/`elif` conditions; because of Python
short-circuiting, when `is_ok` is true the read happens in the `elif`
condition and when `is_ok` is false in the `if` condition, so a missing key
raises `KeyError` on every path — we hoist the lookup and model the raise as
`Except.error`.  `send` gives the boolean result of `send_to_telegram` for a
given message text (at most one send attempt occurs per call).  On success
returns the list of message texts attempted (in order) and the updated map. -/
def notify_status_change (send : String → Bool) (url : String) (is_ok : Bool)
    (site_status : List (String × Bool)) :
    Except String (List String × List (String × Bool)) :=
  match dictGet site_status url with
  | none => .error ("KeyError: " ++ url)
  | some stored =>
    if !is_ok && stored then
      let text := "Resource is down! URL: " ++ url
      if send text then
        .ok ([text], dictSet site_status url is_ok)
      else
        .ok ([text], site_status)
    else if is_ok && !stored then
      let text := "Resource is up! URL: " ++ url
      if send text then
        .ok ([text], dictSet site_status url is_ok)
      else
        .ok ([text], site_status)
    else
      .ok ([], site_status)

/-- The down-notification text `f"Resource is down! URL: {url}"`. -/
def downText (url : String) : String :=
  "Resource is down! URL: " ++ url

/-- The up-notification text `f"Resource is up! URL: {url}"`. -/
def upText (url : String) : String :=
  "Resource is up! URL: " ++ url

/-- Embeds `site_status = \x7burl: True for url in urls\x7d`: the dict comprehension in
`main`, built left to right with dict assignment. -/
def init_site_status (urls : List String) : List (String × Bool) :=
  urls.foldl (fun m url => dictSet m url true) []

/-- A sequence of `notify_status_change` calls, as issued by `main`'s loop:
each event is `(url, is_ok)`; the state map threads through, the attempted
message texts accumulate in order, and a `KeyError` aborts the run. -/
def run_notify (send : String → Bool) :
    List (String × Bool) → List (String × Bool) →
    Except String (List String × List (String × Bool))
  | [], m => .ok ([], m)
  | (url, is_ok) :: rest, m =>
    match notify_status_change send url is_ok m with
    | .error e => .error e
    | .ok (msgs, m') =>
      match run_notify send rest m' with
      | .error e => .error e
      | .ok (msgs', m'') => .ok (msgs ++ msgs', m'')

/-- A parsed configuration file: the `urls` key (absent → `KeyError` in
`main`) and the optional `interval` key (`config.get("interval", 300)`). -/
structure Config where
  urls : Option (List String)
  interval : Option Nat
deriving Repr

/-- The startup phase of `main`, up to the initialization of `site_status`:
checks the Telegram credentials (raising `SystemExit "Credentials not found"`
when the check fails, before the configuration is touched), then uses the
result of `load_config` (which re-raises file/JSON errors), reads `urls`
(a missing key raises), defaults `interval` to 300, and builds the initial
status map. -/
def main_startup (telegram_api_url : String)
    (telegram_api_token telegram_chat_id : Option String)
    (load_result : Except String Config) :
    Except String (List String × Nat × List (String × Bool)) :=
  if !check_telegram_credentials telegram_api_url telegram_api_token
      telegram_chat_id then
    .error "Credentials not found"
  else
    match load_result with
    | .error e => .error e
    | .ok config =>
      match config.urls with
      | none => .error "KeyError: urls"
      | some urls =>
        .ok (urls, config.interval.getD 300, init_site_status urls)

example : check_status (some 200) = true := by decide
example : check_status (some 404) = false := by decide
example : check_status none = false := by decide
example : notify_status_change (fun _ => true) "a" false [("a", true)] =
    .ok (["Resource is down! URL: a"], [("a", false)]) := by rfl
example : notify_status_change (fun _ => false) "a" false [("a", true)] =
    .ok (["Resource is down! URL: a"], [("a", true)]) := by rfl
example : notify_status_change (fun _ => true) "a" true [("a", true)] =
    .ok ([], [("a", true)]) := by rfl
example : notify_status_change (fun _ => true) "a" false [("b", true)] =
    .error "KeyError: a" := by rfl

/-! ### Helper lemmas about the dict embedding -/

theorem dictGet_dictSet_self (m : List (String × Bool)) (k : String) (v : Bool) :
    dictGet (dictSet m k v) k = some v := by
  induction m with
  | nil => simp [dictSet, dictGet]
  | cons p rest ih =>
    obtain ⟨k', v'⟩ := p
    by_cases hk : k' = k
    · simp [dictSet, dictGet, hk]
    · simp [dictSet, dictGet, hk, ih]

theorem dictGet_dictSet_ne (m : List (String × Bool)) (k j : String) (v : Bool)
    (h : j ≠ k) : dictGet (dictSet m k v) j = dictGet m j := by
  induction m with
  | nil => simp [dictSet, dictGet, Ne.symm h]
  | cons p rest ih =>
    obtain ⟨k', v'⟩ := p
    by_cases hk : k' = k
    · subst hk
      simp [dictSet, dictGet, Ne.symm h]
    · simp [dictSet, dictGet, hk, ih]

theorem mem_dictKeys_iff (m : List (String × Bool)) (k : String) :
    k ∈ dictKeys m ↔ (dictGet m k).isSome := by
  induction m with
  | nil => simp [dictKeys, dictGet]
  | cons p rest ih =>
    obtain ⟨k', v'⟩ := p
    by_cases hk : k' = k
    · subst hk
      simp [dictKeys, dictGet]
    · simp only [dictKeys, List.map_cons, List.mem_cons, dictGet, if_neg hk]
      simp [Ne.symm hk]
      simpa [dictKeys] using ih

theorem dictKeys_cons (k : String) (v : Bool) (m : List (String × Bool)) :
    dictKeys ((k, v) :: m) = k :: dictKeys m := rfl

theorem dictKeys_dictSet (m : List (String × Bool)) (k : String) (v : Bool) :
    dictKeys (dictSet m k v) =
      if k ∈ dictKeys m then dictKeys m else dictKeys m ++ [k] := by
  induction m with
  | nil => simp [dictSet, dictKeys]
  | cons p rest ih =>
    obtain ⟨k', v'⟩ := p
    by_cases hk : k' = k
    · subst hk
      simp [dictSet, dictKeys_cons, List.mem_cons]
    · simp only [dictSet, if_neg hk, dictKeys_cons, ih]
      by_cases hm : k ∈ dictKeys rest
      · simp [hm, List.mem_cons]
      · simp [hm, Ne.symm hk, List.mem_cons]

theorem dictKeys_dictSet_nodup (m : List (String × Bool)) (k : String) (v : Bool)
    (h : (dictKeys m).Nodup) : (dictKeys (dictSet m k v)).Nodup := by
  rw [dictKeys_dictSet]
  split
  · exact h
  · next hmem => simp [List.nodup_append, h, hmem]

/-! ### A closed form for `notify_status_change` on a present key -/

theorem notify_eq_of_get (send : String → Bool) (url : String) (is_ok : Bool)
    (m : List (String × Bool)) (stored : Bool)
    (hg : dictGet m url = some stored) :
    notify_status_change send url is_ok m =
      if is_ok = stored then .ok ([], m)
      else
        .ok ([if stored then downText url else upText url],
          if send (if stored then downText url else upText url) then
            dictSet m url is_ok
          else m) := by
  unfold notify_status_change
  rw [hg]
  cases stored <;> cases is_ok <;>
    simp [downText, upText] <;>
    cases hsend : send ("Resource is down! URL: " ++ url) <;>
    cases hsend2 : send ("Resource is up! URL: " ++ url) <;>
    simp [hsend, hsend2]

theorem notify_ok_cases (send : String → Bool) (url : String) (is_ok : Bool)
    (m : List (String × Bool)) (msgs : List String) (m' : List (String × Bool))
    (h : notify_status_change send url is_ok m = .ok (msgs, m')) :
    m' = m ∨ (url ∈ dictKeys m ∧ m' = dictSet m url is_ok) := by
  cases hg : dictGet m url with
  | none =>
    unfold notify_status_change at h
    rw [hg] at h
    simp at h
  | some stored =>
    have hmem : url ∈ dictKeys m := by
      rw [mem_dictKeys_iff, hg]
      rfl
    rw [notify_eq_of_get send url is_ok m stored hg] at h
    by_cases he : is_ok = stored
    · rw [if_pos he] at h
      simp only [Except.ok.injEq, Prod.mk.injEq] at h
      exact Or.inl h.2.symm
    · rw [if_neg he] at h
      by_cases hs : send (if stored then downText url else upText url) = true
      · rw [if_pos hs] at h
        simp only [Except.ok.injEq, Prod.mk.injEq] at h
        exact Or.inr ⟨hmem, h.2.symm⟩
      · rw [if_neg hs] at h
        simp only [Except.ok.injEq, Prod.mk.injEq] at h
        exact Or.inl h.2.symm

theorem notify_ok_dictKeys (send : String → Bool) (url : String) (is_ok : Bool)
    (m : List (String × Bool)) (msgs : List String) (m' : List (String × Bool))
    (h : notify_status_change send url is_ok m = .ok (msgs, m')) :
    dictKeys m' = dictKeys m := by
  rcases notify_ok_cases send url is_ok m msgs m' h with rfl | ⟨hmem, rfl⟩
  · rfl
  · rw [dictKeys_dictSet]
    simp [hmem]

theorem notify_ok_of_get (send : String → Bool) (url : String) (is_ok : Bool)
    (m : List (String × Bool)) (stored : Bool)
    (hg : dictGet m url = some stored) :
    ∃ msgs m', notify_status_change send url is_ok m = .ok (msgs, m') := by
  rw [notify_eq_of_get send url is_ok m stored hg]
  split
  · exact ⟨_, _, rfl⟩
  · exact ⟨_, _, rfl⟩

/-! ### Lemmas about the initial map and sequences of notifications -/

theorem dictGet_foldl_set (urls : List String) (m : List (String × Bool))
    (u : String) :
    dictGet (urls.foldl (fun acc url => dictSet acc url true) m) u =
      if u ∈ urls then some true else dictGet m u := by
  induction urls generalizing m with
  | nil => simp
  | cons a rest ih =>
    simp only [List.foldl_cons, List.mem_cons]
    rw [ih]
    by_cases hu : u ∈ rest
    · simp [hu]
    · by_cases ha : u = a
      · simp [hu, ha, dictGet_dictSet_self]
      · simp [hu, ha, dictGet_dictSet_ne _ _ _ _ ha]

theorem dictGet_init_site_status (urls : List String) (u : String) :
    dictGet (init_site_status urls) u =
      if u ∈ urls then some true else none := by
  unfold init_site_status
  rw [dictGet_foldl_set]
  rfl

theorem mem_dictKeys_init (urls : List String) (u : String) :
    u ∈ dictKeys (init_site_status urls) ↔ u ∈ urls := by
  rw [mem_dictKeys_iff, dictGet_init_site_status]
  by_cases h : u ∈ urls <;> simp [h]

theorem dictKeys_init_nodup (urls : List String) :
    (dictKeys (init_site_status urls)).Nodup := by
  have haux : ∀ (l : List String) (m : List (String × Bool)),
      (dictKeys m).Nodup →
      (dictKeys (l.foldl (fun acc url => dictSet acc url true) m)).Nodup := by
    intro l
    induction l with
    | nil =>
      intro m hm
      simpa using hm
    | cons a rest ih =>
      intro m hm
      simp only [List.foldl_cons]
      exact ih _ (dictKeys_dictSet_nodup _ _ _ hm)
  exact haux urls [] (by simp [dictKeys])

theorem run_notify_dictKeys (send : String → Bool) (evs : List (String × Bool))
    (m : List (String × Bool)) (msgs : List String) (m' : List (String × Bool))
    (h : run_notify send evs m = .ok (msgs, m')) : dictKeys m' = dictKeys m := by
  induction evs generalizing m msgs m' with
  | nil =>
    simp only [run_notify, Except.ok.injEq, Prod.mk.injEq] at h
    rw [← h.2]
  | cons e rest ih =>
    obtain ⟨url, is_ok⟩ := e
    unfold run_notify at h
    cases hn : notify_status_change send url is_ok m with
    | error e1 =>
      rw [hn] at h
      simp at h
    | ok p =>
      obtain ⟨ms1, m1⟩ := p
      rw [hn] at h
      dsimp only at h
      cases hr : run_notify send rest m1 with
      | error e2 =>
        rw [hr] at h
        simp at h
      | ok q =>
        obtain ⟨ms2, m2⟩ := q
        rw [hr] at h
        simp only [Except.ok.injEq, Prod.mk.injEq] at h
        rw [← h.2]
        rw [ih m1 ms2 m2 hr]
        exact notify_ok_dictKeys send url is_ok m ms1 m1 hn

theorem run_notify_ok_of_mem (send : String → Bool) (evs : List (String × Bool))
    (m : List (String × Bool)) (h : ∀ e ∈ evs, e.1 ∈ dictKeys m) :
    ∃ msgs m', run_notify send evs m = .ok (msgs, m')
      ∧ dictKeys m' = dictKeys m := by
  induction evs generalizing m with
  | nil => exact ⟨[], m, rfl, rfl⟩
  | cons e rest ih =>
    obtain ⟨url, is_ok⟩ := e
    have hurl : url ∈ dictKeys m := h (url, is_ok) (List.mem_cons_self _ _)
    have hsome : (dictGet m url).isSome := (mem_dictKeys_iff m url).1 hurl
    obtain ⟨stored, hg⟩ := Option.isSome_iff_exists.1 hsome
    obtain ⟨ms1, m1, hn⟩ := notify_ok_of_get send url is_ok m stored hg
    have hkeys1 : dictKeys m1 = dictKeys m :=
      notify_ok_dictKeys send url is_ok m ms1 m1 hn
    have hrest : ∀ e ∈ rest, e.1 ∈ dictKeys m1 := by
      intro e he
      rw [hkeys1]
      exact h e (List.mem_cons_of_mem _ he)
    obtain ⟨ms2, m2, hr, hkeys2⟩ := ih m1 hrest
    refine ⟨ms1 ++ ms2, m2, ?_, ?_⟩
    · unfold run_notify
      rw [hn]
      dsimp only
      rw [hr]
    · rw [hkeys2, hkeys1]

/-! ### Claim theorems -/

/-- C1: for a URL present in the state map, when the stored state disagrees
with the observation (`is_ok = !stored`), `notify_status_change` makes exactly
one notification attempt — with the "Resource is down!" text when the stored
state was UP, the "Resource is up!" text when it was DOWN — and the stored
entry flips to the observed value if and only if the send succeeds; on send
failure the map is left unchanged. -/
theorem claim_C1 (send : String → Bool) (url : String)
    (m : List (String × Bool)) (stored : Bool)
    (h : dictGet m url = some stored) :
    ∃ m', notify_status_change send url (!stored) m =
        .ok ([if stored then downText url else upText url], m')
      ∧ dictGet m' url =
          some (if send (if stored then downText url else upText url) then
            !stored else stored)
      ∧ (send (if stored then downText url else upText url) = false →
          m' = m) := by
  have hne : ¬((!stored) = stored) := by cases stored <;> decide
  rw [notify_eq_of_get send url (!stored) m stored h, if_neg hne]
  refine ⟨if send (if stored then downText url else upText url) then
    dictSet m url (!stored) else m, rfl, ?_, ?_⟩
  · by_cases hs : send (if stored then downText url else upText url) = true
    · rw [if_pos hs, if_pos hs]
      exact dictGet_dictSet_self m url (!stored)
    · rw [if_neg hs, if_neg hs]
      exact h
  · intro hs
    rw [hs]
    simp

/-- Witness for C1 at `url = "http://a.test"`, stored UP, unhealthy
observation, successful send: the down text is attempted and the entry
flips to DOWN. -/
theorem claim_C1_witness :
    ∃ m', notify_status_change (fun _ => true) "http://a.test" (!true)
        [("http://a.test", true)] =
        .ok ([if true then downText "http://a.test" else upText "http://a.test"], m')
      ∧ dictGet m' "http://a.test" =
          some (if (fun _ => true)
            (if true then downText "http://a.test" else upText "http://a.test") then
            !true else true)
      ∧ ((fun _ => true)
            (if true then downText "http://a.test" else upText "http://a.test") = false →
          m' = [("http://a.test", true)]) :=
  claim_C1 (fun _ => true) "http://a.test" [("http://a.test", true)] true rfl

/-- C2: `check_status` is pure and returns `true` exactly on the value
`some 200`; every other integer and the `None` sentinel map to `false`. -/
theorem claim_C2 :
    (∀ s : Option Int, check_status s = true ↔ s = some 200)
    ∧ check_status none = false := by
  constructor
  · intro s
    unfold check_status
    split
    · next hs => simp [hs]
    · next hs => simp [hs]
  · rfl

/-- C3: when the observation agrees with the stored state,
`notify_status_change` makes no attempt and leaves the map unchanged, and
repeating the identical observation any number of times still produces no
attempt and the same map. -/
theorem claim_C3 (send : String → Bool) (url : String)
    (m : List (String × Bool)) (b : Bool)
    (h : dictGet m url = some b) :
    notify_status_change send url b m = .ok ([], m)
    ∧ ∀ n : Nat, run_notify send (List.replicate n (url, b)) m = .ok ([], m) := by
  have h1 : notify_status_change send url b m = .ok ([], m) := by
    rw [notify_eq_of_get send url b m b h, if_pos rfl]
  refine ⟨h1, ?_⟩
  intro n
  induction n with
  | zero => rfl
  | succ n ih =>
    rw [List.replicate_succ]
    unfold run_notify
    rw [h1]
    dsimp only
    rw [ih]
    dsimp only
    simp

/-- Witness for C3: stored UP, healthy observation — no attempt, map
unchanged even after three repetitions. -/
theorem claim_C3_witness :
    notify_status_change (fun _ => true) "http://a.test" true
        [("http://a.test", true)] = .ok ([], [("http://a.test", true)])
    ∧ ∀ n : Nat, run_notify (fun _ => true)
        (List.replicate n ("http://a.test", true)) [("http://a.test", true)] =
        .ok ([], [("http://a.test", true)]) :=
  claim_C3 (fun _ => true) "http://a.test" [("http://a.test", true)] true rfl

/-- C4: `init_site_status` gives every configured target the value `true`
with exactly one entry per target (keys are exactly the configured targets,
without duplicates), and any sequence of `notify_status_change` calls on
configured targets succeeds and preserves the key set exactly. -/
theorem claim_C4 (urls : List String) (send : String → Bool)
    (events : List (String × Bool))
    (h : ∀ e ∈ events, e.1 ∈ urls) :
    (∀ u ∈ urls, dictGet (init_site_status urls) u = some true)
    ∧ (∀ u, u ∈ dictKeys (init_site_status urls) ↔ u ∈ urls)
    ∧ (dictKeys (init_site_status urls)).Nodup
    ∧ ∃ msgs m', run_notify send events (init_site_status urls) = .ok (msgs, m')
        ∧ dictKeys m' = dictKeys (init_site_status urls) := by
  refine ⟨?_, fun u => mem_dictKeys_init urls u, dictKeys_init_nodup urls, ?_⟩
  · intro u hu
    rw [dictGet_init_site_status, if_pos hu]
  · exact run_notify_ok_of_mem send events (init_site_status urls)
      (fun e he => (mem_dictKeys_init urls e.1).2 (h e he))

/-- Witness for C4: one configured target, a down observation followed by a
repeat — the run succeeds and the key set is unchanged. -/
theorem claim_C4_witness :
    (∀ u ∈ ["http://a.test"], dictGet (init_site_status ["http://a.test"]) u = some true)
    ∧ (∀ u, u ∈ dictKeys (init_site_status ["http://a.test"]) ↔ u ∈ ["http://a.test"])
    ∧ (dictKeys (init_site_status ["http://a.test"])).Nodup
    ∧ ∃ msgs m', run_notify (fun _ => true)
          [("http://a.test", false), ("http://a.test", false)]
          (init_site_status ["http://a.test"]) = .ok (msgs, m')
        ∧ dictKeys m' = dictKeys (init_site_status ["http://a.test"]) :=
  claim_C4 ["http://a.test"] (fun _ => true)
    [("http://a.test", false), ("http://a.test", false)]
    (by decide)

/-- C5: `request_to_host` returns the numeric status code of any completed
response (including 4xx/5xx) and returns the `None` sentinel on any transport
failure; the embedding is a total function, so no error propagates. -/
theorem claim_C5 (url : String) :
    (∀ code : Int, (request_to_host url (TransportResult.completed code)).1 = some code)
    ∧ ∀ err : String, (request_to_host url (TransportResult.failure err)).1 = none :=
  ⟨fun _ => rfl, fun _ => rfl⟩

/-- C6: `send_to_telegram` returns `true` exactly when the service responds
with HTTP 200; any other response status and any transport exception yield
`false` (the embedding is total, so nothing is raised). -/
theorem claim_C6 (message : String) (outcome : HttpOutcome) :
    (send_to_telegram outcome message).1 = true ↔
      ∃ body, outcome = HttpOutcome.response 200 body := by
  cases outcome with
  | response code body =>
    by_cases hc : code = 200
    · subst hc
      simp [send_to_telegram]
    · simp [send_to_telegram, hc]
  | exception err =>
    simp [send_to_telegram]

/-- C7: when the base URL is empty or either environment credential is unset
or empty, `main_startup` aborts with the `SystemExit` message
"Credentials not found" regardless of the configuration-load result (so
before the configuration is read and before any outbound call); when all
three are present and non-empty, `check_telegram_credentials` passes. -/
theorem claim_C7 (u : String) (t c : Option String) :
    (∀ load_result : Except String Config,
      (u = "" ∨ t = none ∨ t = some "" ∨ c = none ∨ c = some "") →
        main_startup u t c load_result = .error "Credentials not found")
    ∧ ((u ≠ "" ∧ t ≠ none ∧ t ≠ some "" ∧ c ≠ none ∧ c ≠ some "") →
        check_telegram_credentials u t c = true) := by
  constructor
  · intro load_result hbad
    have hfalse : check_telegram_credentials u t c = false := by
      unfold check_telegram_credentials
      rcases hbad with rfl | rfl | rfl | rfl | rfl <;> simp [truthy]
    unfold main_startup
    rw [hfalse]
    rfl
  · rintro ⟨hu, ht1, ht2, hc1, hc2⟩
    unfold check_telegram_credentials
    have htu : truthy (some u) = true := by simp [truthy, hu]
    have htt : truthy t = true := by
      cases t with
      | none => exact absurd rfl ht1
      | some s =>
        have hs : s ≠ "" := fun hs => ht2 (by rw [hs])
        simp [truthy, hs]
    have htc : truthy c = true := by
      cases c with
      | none => exact absurd rfl hc1
      | some s =>
        have hs : s ≠ "" := fun hs => hc2 (by rw [hs])
        simp [truthy, hs]
    simp [htu, htt, htc]

/-- Witness for C7: unset bot token — startup aborts with the credentials
error even though a valid configuration is supplied. -/
theorem claim_C7_witness :
    main_startup TELEGRAM_API_URL none (some "42")
      (Except.ok ⟨some ["http://a.test"], none⟩) = .error "Credentials not found" :=
  (claim_C7 TELEGRAM_API_URL none (some "42")).1
    (Except.ok ⟨some ["http://a.test"], none⟩) (Or.inr (Or.inl rfl))

/-- C8 counterexample: on a transport failure the prober emits only the error
line — the informational line (which the claim says is emitted on every
attempt, failures included) is absent from the emitted log. -/
theorem claim_C8_counterexample :
    (request_to_host "http://a.test" (TransportResult.failure "timeout")).2 =
      [⟨LogLevel.error,
        "Request to url: http://a.test failed. Error is - timeout"⟩]
    ∧ LogLine.mk LogLevel.info "Request to url: http://a.test" ∉
        (request_to_host "http://a.test" (TransportResult.failure "timeout")).2 := by
  constructor
  · rfl
  · intro hmem
    simp [request_to_host] at hmem

/-- C8 (amended): a probe attempt that completes emits exactly one
informational log line; an attempt that ends in a transport failure emits
exactly one error log line and no informational line (the informational log
call sits after the request, so it is skipped on failure). -/
theorem claim_C8_amended (url : String) :
    (∀ code : Int, (request_to_host url (TransportResult.completed code)).2 =
        [⟨LogLevel.info, "Request to url: " ++ url⟩])
    ∧ ∀ err : String, (request_to_host url (TransportResult.failure err)).2 =
        [⟨LogLevel.error, "Request to url: " ++ url ++ " failed. Error is - " ++ err⟩] :=
  ⟨fun _ => rfl, fun _ => rfl⟩

/-- C9: `notify_status_change` on a URL absent from the state map raises
`KeyError`; on any URL present in the map the call succeeds. -/
theorem claim_C9 (send : String → Bool) (url : String) (is_ok : Bool)
    (m : List (String × Bool)) :
    (dictGet m url = none →
      notify_status_change send url is_ok m = .error ("KeyError: " ++ url))
    ∧ ∀ b, dictGet m url = some b →
        ∃ msgs m', notify_status_change send url is_ok m = .ok (msgs, m') := by
  constructor
  · intro hg
    unfold notify_status_change
    rw [hg]
  · intro b hg
    exact notify_ok_of_get send url is_ok m b hg

/-- Witness for C9: the empty map has no entry for the URL, so the call
raises `KeyError`. -/
theorem claim_C9_witness :
    notify_status_change (fun _ => true) "http://a.test" false [] =
      .error ("KeyError: " ++ "http://a.test") :=
  (claim_C9 (fun _ => true) "http://a.test" false []).1 rfl

/-- C10: a successful `notify_status_change` call for one URL leaves the
stored value of every other key unchanged, in every transition case and for
either send outcome. -/
theorem claim_C10 (send : String → Bool) (url : String) (is_ok : Bool)
    (m : List (String × Bool)) (msgs : List String) (m' : List (String × Bool))
    (h : notify_status_change send url is_ok m = .ok (msgs, m'))
    (k : String) (hk : k ≠ url) : dictGet m' k = dictGet m k := by
  rcases notify_ok_cases send url is_ok m msgs m' h with rfl | ⟨-, rfl⟩
  · rfl
  · exact dictGet_dictSet_ne m url k is_ok hk

/-- Witness for C10: a committed down transition on one URL leaves the other
URL's entry untouched. -/
theorem claim_C10_witness :
    dictGet [("http://a.test", false), ("http://b.test", true)] "http://b.test" =
      dictGet [("http://a.test", true), ("http://b.test", true)] "http://b.test" :=
  claim_C10 (fun _ => true) "http://a.test" false
    [("http://a.test", true), ("http://b.test", true)]
    ["Resource is down! URL: http://a.test"]
    [("http://a.test", false), ("http://b.test", true)] rfl "http://b.test"
    (by decide)
